import Mathlib

/-!
# SignTalk: the gesture classifier and the per-frame word update of `app.js`

A shallow embedding of `detectGesture`, `checkIfHandOpen`, `updateDetectedWord`
and `detectHands`.

The classifier is embedded twice. `detectGesture` computes in exact arithmetic: a
coordinate is a rational, and the value `Math.sqrt r` is kept as the radicand `r` (type
`Root`), so that `d * c` and `d₁ < d₂` on square roots are decided exactly
(`Root.sqrt_mul_real`, `Root.lt_iff_real`, `Root.le_iff_real` relate this representation to
the real square root). `Js.detectGesture` takes the arithmetic as a parameter (`Js.Arith`) and
assumes nothing about it, so what is proved of it for every arithmetic holds of the program
on IEEE doubles, rounding included; `Js.detectGesture_exact_eq` shows that the first
embedding is the second at exact arithmetic.

A JavaScript array read past the end gives `undefined` (`none`), and reading a
coordinate of `undefined` throws (`deref`), so every function that reads
coordinates returns in `Except JsError`.
-/

namespace SignTalk

/-! ## Data model -/

/-- A landmark is the array `[x, y, z]` produced by the hand model for one point. -/
structure Landmark where
  x : ℚ
  y : ℚ
  z : ℚ
deriving DecidableEq, Repr

/-- The exception raised by a property read on `undefined`. -/
inductive JsError where
  | typeError
deriving DecidableEq, Repr

deriving instance DecidableEq for Except

/-- Reading `p[0]` or `p[1]`: throws when `p` is `undefined`. -/
def deref (p : Option Landmark) : Except JsError Landmark :=
  match p with
  | some a => .ok a
  | none => .error .typeError

/-- The exact value `√radicand`: the result type of `Math.sqrt`. -/
structure Root where
  radicand : ℚ
deriving DecidableEq, Repr

namespace Root

/-- Order of square roots: `√a < √b` is `a < b` on the radicands. -/
instance : LT Root := ⟨fun a b => a.radicand < b.radicand⟩

/-- Order of square roots: `√a ≤ √b` is `a ≤ b` on the radicands. -/
instance : LE Root := ⟨fun a b => a.radicand ≤ b.radicand⟩

instance (a b : Root) : Decidable (a < b) :=
  inferInstanceAs (Decidable (a.radicand < b.radicand))

instance (a b : Root) : Decidable (a ≤ b) :=
  inferInstanceAs (Decidable (a.radicand ≤ b.radicand))

/-- Scaling by a constant: `√a * c = √(a * c ^ 2)` for the non-negative literals
the classifier uses (0.3, 1.1, 1.2, 1.3). -/
instance : HMul Root ℚ Root := ⟨fun a c => ⟨a.radicand * c ^ 2⟩⟩

end Root

namespace Math

/-- The function `Math.pow(x, n)` at a natural exponent. -/
def pow (x : ℚ) (n : ℕ) : ℚ := x ^ n

/-- The function `Math.sqrt(r)`, kept exact. -/
def sqrt (r : ℚ) : Root := ⟨r⟩

end Math

/-- The table `GESTURES`: gesture key to the Arabic word shown and spoken. A key outside
the table reads as `undefined` (`none`); properties inherited from `Object.prototype` are
not modelled. -/
def GESTURES (gesture : String) : Option String :=
  if gesture = "hello" then some "مرحباً"
  else if gesture = "thanks" then some "شكراً"
  else if gesture = "yes" then some "نعم"
  else if gesture = "no" then some "لا"
  else if gesture = "help" then some "مساعدة"
  else none

/-! ## The classifier -/

/-- The arrow function `dist` of `detectGesture` and `checkIfHandOpen`:
2-D Euclidean distance over the first two coordinates. -/
def dist (p1 p2 : Landmark) : Root :=
  Math.sqrt (Math.pow (p1.x - p2.x) 2 + Math.pow (p1.y - p2.y) 2)

/-- The constant `fingerTips` of `checkIfHandOpen`. -/
def fingerTips : List Nat := [4, 8, 12, 16, 20]

/-- The constant `fingerBases` of `checkIfHandOpen`. -/
def fingerBases : List Nat := [2, 6, 10, 14, 18]

/-- The element `landmarks[table[i]]`: `undefined` when either index is out of range. -/
def tableEntry (l : List Landmark) (table : List Nat) (i : Nat) : Option Landmark :=
  (table[i]?).bind (fun k => l[k]?)

/-- The function `checkIfHandOpen`. -/
def checkIfHandOpen (landmarks : Option (List Landmark)) : Except JsError Bool :=
  match landmarks with
  | none => pure false
  | some l =>
    if l.length < 21 then pure false
    else do
      let mut extendedFingers := 0
      for i in [1, 2, 3, 4] do
        let tipY := (← deref (tableEntry l fingerTips i)).y
        let baseY := (← deref (tableEntry l fingerBases i)).y
        if tipY < baseY then
          extendedFingers := extendedFingers + 1
      return decide (extendedFingers ≥ 4)

/-- The function `detectGesture`. Each landmark is read where the source reads it, so a
missing landmark would raise at its first use. -/
def detectGesture (landmarks : Option (List Landmark)) : Except JsError (Option String) :=
  match landmarks with
  | none => pure none
  | some l =>
    if l.length < 21 then pure none
    else do
      let wrist := l[0]?
      let thumbTip := l[4]?
      let indexTip := l[8]?
      let middleTip := l[12]?
      let ringTip := l[16]?
      let pinkyTip := l[20]?
      let thumbBase := l[1]?
      let indexBase := l[5]?
      let middleBase := l[9]?
      let ringBase := l[13]?
      let pinkyBase := l[17]?
      -- 'hello'
      if (← checkIfHandOpen landmarks) then
        return some "hello"
      -- 'thanks'
      let thumbToMiddleDist := dist (← deref thumbTip) (← deref middleTip)
      let thumbToMiddleBaseDist := dist (← deref thumbTip) (← deref middleBase)
      if thumbToMiddleDist < thumbToMiddleBaseDist * (0.3 : ℚ) then
        return some "thanks"
      -- 'yes'
      let thumbToIndexDist := dist (← deref thumbTip) (← deref indexTip)
      let thumbToIndexBaseDist := dist (← deref thumbTip) (← deref indexBase)
      if thumbToIndexDist < thumbToIndexBaseDist * (0.3 : ℚ) then
        let middleExtended : Bool :=
          dist (← deref middleTip) (← deref wrist) > dist (← deref middleBase) (← deref wrist) * (1.2 : ℚ)
        let ringExtended : Bool :=
          dist (← deref ringTip) (← deref wrist) > dist (← deref ringBase) (← deref wrist) * (1.2 : ℚ)
        let pinkyExtended : Bool :=
          dist (← deref pinkyTip) (← deref wrist) > dist (← deref pinkyBase) (← deref wrist) * (1.2 : ℚ)
        if !middleExtended && !ringExtended && !pinkyExtended then
          return some "yes"
      -- 'no'
      let indexExtended : Bool :=
        dist (← deref indexTip) (← deref wrist) > dist (← deref indexBase) (← deref wrist) * (1.3 : ℚ)
      let middleClosed : Bool :=
        dist (← deref middleTip) (← deref wrist) < dist (← deref middleBase) (← deref wrist) * (1.1 : ℚ)
      let ringClosed : Bool :=
        dist (← deref ringTip) (← deref wrist) < dist (← deref ringBase) (← deref wrist) * (1.1 : ℚ)
      let pinkyClosed : Bool :=
        dist (← deref pinkyTip) (← deref wrist) < dist (← deref pinkyBase) (← deref wrist) * (1.1 : ℚ)
      let thumbClosed : Bool :=
        dist (← deref thumbTip) (← deref wrist) < dist (← deref thumbBase) (← deref wrist) * (1.1 : ℚ)
      if indexExtended && middleClosed && ringClosed && pinkyClosed && thumbClosed then
        return some "no"
      -- 'help'
      let thumbExtended : Bool :=
        dist (← deref thumbTip) (← deref wrist) > dist (← deref thumbBase) (← deref wrist) * (1.3 : ℚ)
      let pinkyExtended : Bool :=
        dist (← deref pinkyTip) (← deref wrist) > dist (← deref pinkyBase) (← deref wrist) * (1.3 : ℚ)
      let indexClosed : Bool :=
        dist (← deref indexTip) (← deref wrist) < dist (← deref indexBase) (← deref wrist) * (1.1 : ℚ)
      let middleRingClosed : Bool :=
        dist (← deref middleTip) (← deref wrist) < dist (← deref middleBase) (← deref wrist) * (1.1 : ℚ) &&
        dist (← deref ringTip) (← deref wrist) < dist (← deref ringBase) (← deref wrist) * (1.1 : ℚ)
      if thumbExtended && pinkyExtended && indexClosed && middleRingClosed then
        return some "help"
      return none


/-! ## The five rule conditions, as the specification words them -/

/-- Rule 2 (Thanks): thumb tip nearer to the middle tip than 0.3 times its distance to the
middle base. -/
def thanksCond (l : List Landmark) (hl : l.length = 21) : Prop :=
  dist l[4] l[12] < dist l[4] l[9] * (0.3 : ℚ)

/-- Rule 3 (Yes): thumb tip nearer to the index tip than 0.3 times its distance to the index
base, and none of middle, ring, pinky extended past 1.2 times. -/
def yesCond (l : List Landmark) (hl : l.length = 21) : Prop :=
  dist l[4] l[8] < dist l[4] l[5] * (0.3 : ℚ) ∧
    ¬ dist l[12] l[0] > dist l[9] l[0] * (1.2 : ℚ) ∧
    ¬ dist l[16] l[0] > dist l[13] l[0] * (1.2 : ℚ) ∧
    ¬ dist l[20] l[0] > dist l[17] l[0] * (1.2 : ℚ)

/-- Rule 4 (No): index extended past 1.3 times; middle, ring, pinky and thumb within 1.1
times. -/
def noCond (l : List Landmark) (hl : l.length = 21) : Prop :=
  dist l[8] l[0] > dist l[5] l[0] * (1.3 : ℚ) ∧
    dist l[12] l[0] < dist l[9] l[0] * (1.1 : ℚ) ∧
    dist l[16] l[0] < dist l[13] l[0] * (1.1 : ℚ) ∧
    dist l[20] l[0] < dist l[17] l[0] * (1.1 : ℚ) ∧
    dist l[4] l[0] < dist l[1] l[0] * (1.1 : ℚ)

/-- Rule 5 (Help): thumb and pinky extended past 1.3 times; index, middle and ring within
1.1 times. -/
def helpCond (l : List Landmark) (hl : l.length = 21) : Prop :=
  dist l[4] l[0] > dist l[1] l[0] * (1.3 : ℚ) ∧
    dist l[20] l[0] > dist l[17] l[0] * (1.3 : ℚ) ∧
    dist l[8] l[0] < dist l[5] l[0] * (1.1 : ℚ) ∧
    dist l[12] l[0] < dist l[9] l[0] * (1.1 : ℚ) ∧
    dist l[16] l[0] < dist l[13] l[0] * (1.1 : ℚ)

instance (l : List Landmark) (hl : l.length = 21) : Decidable (thanksCond l hl) := by
  unfold thanksCond; infer_instance

instance (l : List Landmark) (hl : l.length = 21) : Decidable (yesCond l hl) := by
  unfold yesCond; infer_instance

instance (l : List Landmark) (hl : l.length = 21) : Decidable (noCond l hl) := by
  unfold noCond; infer_instance

instance (l : List Landmark) (hl : l.length = 21) : Decidable (helpCond l hl) := by
  unfold helpCond; infer_instance

/-- Four non-thumb fingertips above the joints 5, 9, 13, 17 (the base joints of the
specification's numbering). -/
def tipsAboveBaseJoints (l : List Landmark) (hl : l.length = 21) : Prop :=
  l[8].y < l[5].y ∧ l[12].y < l[9].y ∧ l[16].y < l[13].y ∧ l[20].y < l[17].y

/-- Four non-thumb fingertips above the joints 6, 10, 14, 18 (the entries of `fingerBases`). -/
def tipsAboveFingerBases (l : List Landmark) (hl : l.length = 21) : Prop :=
  l[8].y < l[6].y ∧ l[12].y < l[10].y ∧ l[16].y < l[14].y ∧ l[20].y < l[18].y

/-- Thumb tip within 20% of the thumb-tip-to-middle-base distance from the middle tip. -/
def thumbWithinFifth (l : List Landmark) (hl : l.length = 21) : Prop :=
  dist l[4] l[12] ≤ dist l[4] l[9] * (0.2 : ℚ)

/-- Thumb tip and middle base are different points of the frame. -/
def thumbOffMiddleBase (l : List Landmark) (hl : l.length = 21) : Prop :=
  Math.sqrt 0 < dist l[4] l[9]

/-! ## Hands used as concrete inputs -/

/-- An upright open hand whose thumb tip lies on the middle fingertip. -/
def openPinchHand : List Landmark :=
  [⟨50, 200, 0⟩,  -- wrist 0
   ⟨30, 180, 0⟩, ⟨25, 150, 0⟩, ⟨35, 100, 0⟩, ⟨50, 20, 0⟩,  -- thumb 1-4
   ⟨30, 100, 0⟩, ⟨30, 70, 0⟩, ⟨30, 45, 0⟩, ⟨30, 20, 0⟩,  -- index 5-8
   ⟨50, 100, 0⟩, ⟨50, 70, 0⟩, ⟨50, 45, 0⟩, ⟨50, 20, 0⟩,  -- middle 9-12
   ⟨60, 100, 0⟩, ⟨60, 70, 0⟩, ⟨60, 45, 0⟩, ⟨60, 20, 0⟩,  -- ring 13-16
   ⟨70, 100, 0⟩, ⟨70, 70, 0⟩, ⟨70, 45, 0⟩, ⟨70, 20, 0⟩]  -- pinky 17-20

/-- Four fingers bent at the middle joint: each fingertip lies above its base joint
(5, 9, 13, 17) and below its middle joint (6, 10, 14, 18). -/
def curledHand : List Landmark :=
  [⟨50, 200, 0⟩,  -- wrist 0
   ⟨30, 180, 0⟩, ⟨20, 160, 0⟩, ⟨15, 145, 0⟩, ⟨12, 130, 0⟩,  -- thumb 1-4
   ⟨30, 100, 0⟩, ⟨30, 60, 0⟩, ⟨32, 65, 0⟩, ⟨30, 80, 0⟩,  -- index 5-8
   ⟨45, 100, 0⟩, ⟨45, 60, 0⟩, ⟨47, 65, 0⟩, ⟨45, 80, 0⟩,  -- middle 9-12
   ⟨60, 100, 0⟩, ⟨60, 60, 0⟩, ⟨62, 65, 0⟩, ⟨60, 80, 0⟩,  -- ring 13-16
   ⟨75, 100, 0⟩, ⟨75, 60, 0⟩, ⟨77, 65, 0⟩, ⟨75, 80, 0⟩]  -- pinky 17-20

/-- The hand `curledHand` with other depth values. -/
def curledHandDeep : List Landmark :=
  [⟨50, 200, 1⟩,  -- wrist 0
   ⟨30, 180, 2⟩, ⟨20, 160, 3⟩, ⟨15, 145, 4⟩, ⟨12, 130, 5⟩,  -- thumb 1-4
   ⟨30, 100, 6⟩, ⟨30, 60, 7⟩, ⟨32, 65, 8⟩, ⟨30, 80, 9⟩,  -- index 5-8
   ⟨45, 100, 10⟩, ⟨45, 60, 11⟩, ⟨47, 65, 12⟩, ⟨45, 80, 13⟩,  -- middle 9-12
   ⟨60, 100, 14⟩, ⟨60, 60, 15⟩, ⟨62, 65, 16⟩, ⟨60, 80, 17⟩,  -- ring 13-16
   ⟨75, 100, 18⟩, ⟨75, 60, 19⟩, ⟨77, 65, 20⟩, ⟨75, 80, 21⟩]  -- pinky 17-20

/-- All 21 landmarks at the same point. -/
def collapsedHand : List Landmark :=
  [⟨0, 0, 0⟩,  -- wrist 0
   ⟨0, 0, 0⟩, ⟨0, 0, 0⟩, ⟨0, 0, 0⟩, ⟨0, 0, 0⟩,  -- thumb 1-4
   ⟨0, 0, 0⟩, ⟨0, 0, 0⟩, ⟨0, 0, 0⟩, ⟨0, 0, 0⟩,  -- index 5-8
   ⟨0, 0, 0⟩, ⟨0, 0, 0⟩, ⟨0, 0, 0⟩, ⟨0, 0, 0⟩,  -- middle 9-12
   ⟨0, 0, 0⟩, ⟨0, 0, 0⟩, ⟨0, 0, 0⟩, ⟨0, 0, 0⟩,  -- ring 13-16
   ⟨0, 0, 0⟩, ⟨0, 0, 0⟩, ⟨0, 0, 0⟩, ⟨0, 0, 0⟩]  -- pinky 17-20

/-- Index finger stretched out, the other fingers short but with tips above their
middle joints. -/
def pointingOpenHand : List Landmark :=
  [⟨50, 200, 0⟩,  -- wrist 0
   ⟨30, 180, 0⟩, ⟨24, 170, 0⟩, ⟨28, 175, 0⟩, ⟨32, 178, 0⟩,  -- thumb 1-4
   ⟨30, 100, 0⟩, ⟨30, 70, 0⟩, ⟨30, 45, 0⟩, ⟨30, 20, 0⟩,  -- index 5-8
   ⟨50, 100, 0⟩, ⟨50, 95, 0⟩, ⟨50, 93, 0⟩, ⟨50, 92, 0⟩,  -- middle 9-12
   ⟨60, 100, 0⟩, ⟨60, 95, 0⟩, ⟨60, 93, 0⟩, ⟨60, 92, 0⟩,  -- ring 13-16
   ⟨70, 100, 0⟩, ⟨70, 95, 0⟩, ⟨70, 93, 0⟩, ⟨70, 92, 0⟩]  -- pinky 17-20

/-- Index finger stretched out, the other fingers curled. -/
def pointingHand : List Landmark :=
  [⟨50, 200, 0⟩,  -- wrist 0
   ⟨30, 180, 0⟩, ⟨24, 170, 0⟩, ⟨28, 175, 0⟩, ⟨32, 178, 0⟩,  -- thumb 1-4
   ⟨30, 100, 0⟩, ⟨30, 70, 0⟩, ⟨30, 45, 0⟩, ⟨30, 20, 0⟩,  -- index 5-8
   ⟨50, 100, 0⟩, ⟨50, 90, 0⟩, ⟨50, 91, 0⟩, ⟨50, 92, 0⟩,  -- middle 9-12
   ⟨60, 100, 0⟩, ⟨60, 90, 0⟩, ⟨60, 91, 0⟩, ⟨60, 92, 0⟩,  -- ring 13-16
   ⟨70, 100, 0⟩, ⟨70, 90, 0⟩, ⟨70, 91, 0⟩, ⟨70, 92, 0⟩]  -- pinky 17-20

/-- Thumb and pinky stretched out, the other fingers folded, thumb tip on the middle
fingertip. -/
def helpThanksHand : List Landmark :=
  [⟨50, 200, 0⟩,  -- wrist 0
   ⟨40, 190, 0⟩, ⟨42, 175, 0⟩, ⟨46, 160, 0⟩, ⟨50, 150, 0⟩,  -- thumb 1-4
   ⟨30, 100, 0⟩, ⟨30, 80, 0⟩, ⟨33, 120, 0⟩, ⟨35, 150, 0⟩,  -- index 5-8
   ⟨50, 100, 0⟩, ⟨50, 80, 0⟩, ⟨50, 120, 0⟩, ⟨50, 150, 0⟩,  -- middle 9-12
   ⟨60, 100, 0⟩, ⟨60, 80, 0⟩, ⟨60, 120, 0⟩, ⟨60, 150, 0⟩,  -- ring 13-16
   ⟨70, 100, 0⟩, ⟨78, 85, 0⟩, ⟨85, 70, 0⟩, ⟨90, 60, 0⟩]  -- pinky 17-20

/-- Thumb and pinky stretched out, the other fingers folded. -/
def helpHand : List Landmark :=
  [⟨50, 200, 0⟩,  -- wrist 0
   ⟨40, 190, 0⟩, ⟨30, 180, 0⟩, ⟨20, 170, 0⟩, ⟨10, 160, 0⟩,  -- thumb 1-4
   ⟨30, 100, 0⟩, ⟨30, 80, 0⟩, ⟨33, 120, 0⟩, ⟨35, 150, 0⟩,  -- index 5-8
   ⟨50, 100, 0⟩, ⟨50, 80, 0⟩, ⟨50, 120, 0⟩, ⟨50, 150, 0⟩,  -- middle 9-12
   ⟨60, 100, 0⟩, ⟨60, 80, 0⟩, ⟨60, 120, 0⟩, ⟨60, 150, 0⟩,  -- ring 13-16
   ⟨70, 100, 0⟩, ⟨78, 85, 0⟩, ⟨85, 70, 0⟩, ⟨90, 60, 0⟩]  -- pinky 17-20

/-- The hand `pointingHand` with the middle finger folded onto the thumb tip. -/
def pointingThanksHand : List Landmark :=
  [⟨50, 200, 0⟩,  -- wrist 0
   ⟨30, 180, 0⟩, ⟨24, 170, 0⟩, ⟨28, 175, 0⟩, ⟨32, 178, 0⟩,  -- thumb 1-4
   ⟨30, 100, 0⟩, ⟨30, 70, 0⟩, ⟨30, 45, 0⟩, ⟨30, 20, 0⟩,  -- index 5-8
   ⟨50, 100, 0⟩, ⟨50, 130, 0⟩, ⟨40, 160, 0⟩, ⟨34, 176, 0⟩,  -- middle 9-12
   ⟨60, 100, 0⟩, ⟨60, 90, 0⟩, ⟨60, 91, 0⟩, ⟨60, 92, 0⟩,  -- ring 13-16
   ⟨70, 100, 0⟩, ⟨70, 90, 0⟩, ⟨70, 91, 0⟩, ⟨70, 92, 0⟩]  -- pinky 17-20

/-- A foreshortened pointing hand: index base close to the wrist, thumb tip next to the
index fingertip. -/
def pointingYesHand : List Landmark :=
  [⟨50, 200, 0⟩,  -- wrist 0
   ⟨30, 180, 0⟩, ⟨24, 170, 0⟩, ⟨28, 175, 0⟩, ⟨51, 180, 0⟩,  -- thumb 1-4
   ⟨50, 190, 0⟩, ⟨50, 187, 0⟩, ⟨50, 183, 0⟩, ⟨50, 180, 0⟩,  -- index 5-8
   ⟨50, 100, 0⟩, ⟨50, 90, 0⟩, ⟨50, 91, 0⟩, ⟨50, 92, 0⟩,  -- middle 9-12
   ⟨60, 100, 0⟩, ⟨60, 90, 0⟩, ⟨60, 91, 0⟩, ⟨60, 92, 0⟩,  -- ring 13-16
   ⟨70, 100, 0⟩, ⟨70, 90, 0⟩, ⟨70, 91, 0⟩, ⟨70, 92, 0⟩]  -- pinky 17-20

/-- A detection with 3 landmarks only. -/
def shortHand : List Landmark :=
  [⟨1, 2, 3⟩, ⟨4, 5, 6⟩, ⟨7, 8, 9⟩]

/-! ## The per-frame callback and the word update

The state is the part of the page that `updateDetectedWord` and `detectHands` read and write:
the detected-word element, the module variables, the calls made on `synth`, the pending
`setTimeout` callbacks and the animation frames requested. Canvas drawing is not part of it.
The result of `await estimateHands(video)` is the input `predictions` of the step, and the
step is taken as atomic: no other handler runs between the `await` and the end of the frame. -/

/-- A call made on `synth` (`window.speechSynthesis`). -/
inductive SynthCall where
  | cancel
  | speak (text : String) (lang : String) (rate : ℚ)
deriving DecidableEq, Repr

/-- A callback registered with `setTimeout`. -/
inductive TimerAction where
  | hideDetectedWord
deriving DecidableEq, Repr

/-- The page state read and written by the frame callback. -/
structure AppState where
  handposeModel : Bool
  isCameraOn : Bool
  synth : Bool
  textContent : String
  visibility : String
  opacity : String
  lastSpokenWord : String
  isSpeaking : Bool
  synthCalls : List SynthCall
  timers : List (Nat × TimerAction)
  animationFrames : Nat
deriving DecidableEq, Repr

/-- The function `updateDetectedWord`. The utterance's `onend` handler, which resets
`isSpeaking` later, is not part of the step. -/
def updateDetectedWord (s : AppState) (gesture : String) : AppState :=
  match GESTURES gesture with
  | some word =>
    let s := { s with textContent := word, visibility := "visible", opacity := "1" }
    if s.synth && word != s.lastSpokenWord then
      { s with
        synthCalls := s.synthCalls ++ [SynthCall.cancel, SynthCall.speak word "ar-SA" 0.9]
        lastSpokenWord := word
        isSpeaking := true }
    else s
  | none =>
    { s with opacity := "0", timers := s.timers ++ [(300, TimerAction.hideDetectedWord)] }

/-- A pending timer callback runs: the arrow function passed to `setTimeout`. -/
def runTimer (s : AppState) (a : TimerAction) : AppState :=
  match a with
  | .hideDetectedWord => { s with visibility := "hidden" }

/-- The constant `connections` of `drawHandLandmarks`. -/
def connections : List (Nat × Nat) :=
  [(0, 1), (0, 5), (0, 9), (0, 13), (0, 17),
   (1, 2), (2, 3), (3, 4),
   (5, 6), (6, 7), (7, 8),
   (9, 10), (10, 11), (11, 12),
   (13, 14), (14, 15), (15, 16),
   (17, 18), (18, 19), (19, 20)]

/-- The function `drawHandLandmarks`, reduced to its landmark reads: it throws when an
endpoint of a connection is `undefined`; what it draws is outside the state. -/
def drawHandLandmarks (landmarks : List Landmark) : Except JsError Unit :=
  connections.forM fun (start, stop) => do
    let _startPoint ← deref landmarks[start]?
    let _stopPoint ← deref landmarks[stop]?
    pure ()

/-- One entry of the array returned by `estimateHands`. -/
structure Prediction where
  landmarks : List Landmark
deriving DecidableEq, Repr

/-- The function `detectHands`, one frame, on the result `predictions` of `estimateHands`. -/
def detectHands (s : AppState) (predictions : List Prediction) : Except JsError AppState :=
  if !s.handposeModel || !s.isCameraOn then pure s
  else do
    let s ← match predictions with
      | [] => pure s
      | result :: _ => do
        drawHandLandmarks result.landmarks
        let detectedGesture ← detectGesture (some result.landmarks)
        match detectedGesture with
        | some gesture =>
          if gesture ≠ "" then pure (updateDetectedWord s gesture) else pure s
        | none => pure s
    if s.isCameraOn then
      pure { s with animationFrames := s.animationFrames + 1 }
    else pure s

/-- A running session that shows and has spoken the word for 'hello'. -/
def shownState : AppState :=
  { handposeModel := true
    isCameraOn := true
    synth := true
    textContent := "مرحباً"
    visibility := "visible"
    opacity := "1"
    lastSpokenWord := "مرحباً"
    isSpeaking := false
    synthCalls := [SynthCall.cancel, SynthCall.speak "مرحباً" "ar-SA" 0.9]
    timers := []
    animationFrames := 0 }

/-- A running session before any word was detected. -/
def freshState : AppState :=
  { handposeModel := true
    isCameraOn := true
    synth := true
    textContent := "سيظهر نص الترجمة هنا..."
    visibility := "visible"
    opacity := "1"
    lastSpokenWord := ""
    isSpeaking := false
    synthCalls := []
    timers := []
    animationFrames := 0 }

/-! ## The classifier over the arithmetic the program runs on

The classifier above computes in exact arithmetic. The program computes in JavaScript numbers
(IEEE doubles), whose operations round. Here the arithmetic is a parameter: `Js.Arith` lists the
operations the classifier uses and assumes nothing about them, so a statement proved for every
`Js.Arith` holds of the program with its own `-`, `+`, `Math.pow`, `Math.sqrt`, `*` and `<`.
A square root is only ever multiplied by a literal and compared with another such value, so
square roots have a sort of their own (`R`); for doubles `R` and `N` are the same type. -/

namespace Js

/-- The operations on numbers that `detectGesture` and `checkIfHandOpen` use. -/
structure Arith where
  /-- Numbers: coordinates, their differences, squares and sums. -/
  N : Type
  /-- Results of `Math.sqrt`, and their products with a literal. -/
  R : Type
  /-- The operator `a - b`. -/
  sub : N → N → N
  /-- The operator `a + b`. -/
  add : N → N → N
  /-- The function `Math.pow(a, n)`. -/
  pow : N → Nat → N
  /-- The function `Math.sqrt(a)`. -/
  sqrt : N → R
  /-- The product `r * c` with the literal `c` (0.3, 1.1, 1.2, 1.3), written as a decimal. -/
  mul : R → ℚ → R
  /-- The comparison `a < b` of two coordinates. -/
  ltN : N → N → Bool
  /-- The comparison `a < b` of two distances; `a > b` is `ltR b a`. -/
  ltR : R → R → Bool

/-- Laws of the comparison and of scaling that hold of IEEE doubles (a comparison with NaN is
false, `Math.sqrt` gives NaN or a value that is not negative, and rounding a product is
monotone) and of exact arithmetic. -/
structure Arith.Lawful (A : Arith) : Prop where
  lt_irrefl : ∀ a : A.R, A.ltR a a = false
  lt_trans : ∀ a b c : A.R, A.ltR a b = true → A.ltR b c = true → A.ltR a c = true
  mul_sqrt_mono : ∀ (n : A.N) (c c' : ℚ) (p : A.R), 0 < c → c ≤ c' →
    A.ltR (A.mul (A.sqrt n) c') p = true → A.ltR (A.mul (A.sqrt n) c) p = true

/-- A landmark `[x, y, z]` with coordinates in `N`. -/
structure Landmark (N : Type) where
  x : N
  y : N
  z : N

/-- Reading `p[0]` or `p[1]`: throws when `p` is `undefined`. -/
def deref {α : Type} (p : Option α) : Except JsError α :=
  match p with
  | some a => .ok a
  | none => .error .typeError

/-- The arrow function `dist`. -/
def dist (A : Arith) (p1 p2 : Landmark A.N) : A.R :=
  A.sqrt (A.add (A.pow (A.sub p1.x p2.x) 2) (A.pow (A.sub p1.y p2.y) 2))

/-- The element `landmarks[table[i]]`: `undefined` when either index is out of range. -/
def tableEntry {α : Type} (l : List α) (table : List Nat) (i : Nat) : Option α :=
  (table[i]?).bind (fun k => l[k]?)

/-- The function `checkIfHandOpen`. -/
def checkIfHandOpen (A : Arith) (landmarks : Option (List (Landmark A.N))) :
    Except JsError Bool :=
  match landmarks with
  | none => pure false
  | some l =>
    if l.length < 21 then pure false
    else do
      let mut extendedFingers := 0
      for i in [1, 2, 3, 4] do
        let tipY := (← deref (tableEntry l fingerTips i)).y
        let baseY := (← deref (tableEntry l fingerBases i)).y
        if A.ltN tipY baseY then
          extendedFingers := extendedFingers + 1
      return decide (extendedFingers ≥ 4)

/-- The function `detectGesture`. -/
def detectGesture (A : Arith) (landmarks : Option (List (Landmark A.N))) :
    Except JsError (Option String) :=
  match landmarks with
  | none => pure none
  | some l =>
    if l.length < 21 then pure none
    else do
      let wrist := l[0]?
      let thumbTip := l[4]?
      let indexTip := l[8]?
      let middleTip := l[12]?
      let ringTip := l[16]?
      let pinkyTip := l[20]?
      let thumbBase := l[1]?
      let indexBase := l[5]?
      let middleBase := l[9]?
      let ringBase := l[13]?
      let pinkyBase := l[17]?
      -- 'hello'
      if (← checkIfHandOpen A landmarks) then
        return some "hello"
      -- 'thanks'
      let thumbToMiddleDist := dist A (← deref thumbTip) (← deref middleTip)
      let thumbToMiddleBaseDist := dist A (← deref thumbTip) (← deref middleBase)
      if A.ltR thumbToMiddleDist (A.mul thumbToMiddleBaseDist 0.3) then
        return some "thanks"
      -- 'yes'
      let thumbToIndexDist := dist A (← deref thumbTip) (← deref indexTip)
      let thumbToIndexBaseDist := dist A (← deref thumbTip) (← deref indexBase)
      if A.ltR thumbToIndexDist (A.mul thumbToIndexBaseDist 0.3) then
        let middleExtended : Bool :=
          A.ltR (A.mul (dist A (← deref middleBase) (← deref wrist)) 1.2)
            (dist A (← deref middleTip) (← deref wrist))
        let ringExtended : Bool :=
          A.ltR (A.mul (dist A (← deref ringBase) (← deref wrist)) 1.2)
            (dist A (← deref ringTip) (← deref wrist))
        let pinkyExtended : Bool :=
          A.ltR (A.mul (dist A (← deref pinkyBase) (← deref wrist)) 1.2)
            (dist A (← deref pinkyTip) (← deref wrist))
        if !middleExtended && !ringExtended && !pinkyExtended then
          return some "yes"
      -- 'no'
      let indexExtended : Bool :=
        A.ltR (A.mul (dist A (← deref indexBase) (← deref wrist)) 1.3)
          (dist A (← deref indexTip) (← deref wrist))
      let middleClosed : Bool :=
        A.ltR (dist A (← deref middleTip) (← deref wrist))
          (A.mul (dist A (← deref middleBase) (← deref wrist)) 1.1)
      let ringClosed : Bool :=
        A.ltR (dist A (← deref ringTip) (← deref wrist))
          (A.mul (dist A (← deref ringBase) (← deref wrist)) 1.1)
      let pinkyClosed : Bool :=
        A.ltR (dist A (← deref pinkyTip) (← deref wrist))
          (A.mul (dist A (← deref pinkyBase) (← deref wrist)) 1.1)
      let thumbClosed : Bool :=
        A.ltR (dist A (← deref thumbTip) (← deref wrist))
          (A.mul (dist A (← deref thumbBase) (← deref wrist)) 1.1)
      if indexExtended && middleClosed && ringClosed && pinkyClosed && thumbClosed then
        return some "no"
      -- 'help'
      let thumbExtended : Bool :=
        A.ltR (A.mul (dist A (← deref thumbBase) (← deref wrist)) 1.3)
          (dist A (← deref thumbTip) (← deref wrist))
      let pinkyExtended : Bool :=
        A.ltR (A.mul (dist A (← deref pinkyBase) (← deref wrist)) 1.3)
          (dist A (← deref pinkyTip) (← deref wrist))
      let indexClosed : Bool :=
        A.ltR (dist A (← deref indexTip) (← deref wrist))
          (A.mul (dist A (← deref indexBase) (← deref wrist)) 1.1)
      let middleRingClosed : Bool :=
        A.ltR (dist A (← deref middleTip) (← deref wrist))
            (A.mul (dist A (← deref middleBase) (← deref wrist)) 1.1) &&
          A.ltR (dist A (← deref ringTip) (← deref wrist))
            (A.mul (dist A (← deref ringBase) (← deref wrist)) 1.1)
      if thumbExtended && pinkyExtended && indexClosed && middleRingClosed then
        return some "help"
      return none

/-- The Hello check as the program evaluates it: `checkIfHandOpen` returns true. -/
def helloCond (A : Arith) (l : List (Landmark A.N)) : Prop :=
  checkIfHandOpen A (some l) = .ok true

/-- Rule 2 (Thanks) as the program evaluates it:
`dist(l[4], l[12]) < dist(l[4], l[9]) * 0.3`. -/
def thanksCond (A : Arith) (l : List (Landmark A.N)) (hl : l.length = 21) : Prop :=
  A.ltR (dist A l[4] l[12]) (A.mul (dist A l[4] l[9]) 0.3) = true

/-- Rule 3 (Yes) as the program evaluates it: `dist(l[4], l[8]) < dist(l[4], l[5]) * 0.3` and
none of middle, ring, pinky has `dist(tip, wrist) > dist(base, wrist) * 1.2`. -/
def yesCond (A : Arith) (l : List (Landmark A.N)) (hl : l.length = 21) : Prop :=
  A.ltR (dist A l[4] l[8]) (A.mul (dist A l[4] l[5]) 0.3) = true ∧
    A.ltR (A.mul (dist A l[9] l[0]) 1.2) (dist A l[12] l[0]) = false ∧
    A.ltR (A.mul (dist A l[13] l[0]) 1.2) (dist A l[16] l[0]) = false ∧
    A.ltR (A.mul (dist A l[17] l[0]) 1.2) (dist A l[20] l[0]) = false

/-- Rule 4 (No) as the program evaluates it: index `dist(tip, wrist) > dist(base, wrist) * 1.3`;
middle, ring, pinky and thumb `dist(tip, wrist) < dist(base, wrist) * 1.1`. -/
def noCond (A : Arith) (l : List (Landmark A.N)) (hl : l.length = 21) : Prop :=
  A.ltR (A.mul (dist A l[5] l[0]) 1.3) (dist A l[8] l[0]) = true ∧
    A.ltR (dist A l[12] l[0]) (A.mul (dist A l[9] l[0]) 1.1) = true ∧
    A.ltR (dist A l[16] l[0]) (A.mul (dist A l[13] l[0]) 1.1) = true ∧
    A.ltR (dist A l[20] l[0]) (A.mul (dist A l[17] l[0]) 1.1) = true ∧
    A.ltR (dist A l[4] l[0]) (A.mul (dist A l[1] l[0]) 1.1) = true

/-- Rule 5 (Help) as the program evaluates it: thumb and pinky
`dist(tip, wrist) > dist(base, wrist) * 1.3`; index, middle and ring
`dist(tip, wrist) < dist(base, wrist) * 1.1`. -/
def helpCond (A : Arith) (l : List (Landmark A.N)) (hl : l.length = 21) : Prop :=
  A.ltR (A.mul (dist A l[1] l[0]) 1.3) (dist A l[4] l[0]) = true ∧
    A.ltR (A.mul (dist A l[17] l[0]) 1.3) (dist A l[20] l[0]) = true ∧
    A.ltR (dist A l[8] l[0]) (A.mul (dist A l[5] l[0]) 1.1) = true ∧
    A.ltR (dist A l[12] l[0]) (A.mul (dist A l[9] l[0]) 1.1) = true ∧
    A.ltR (dist A l[16] l[0]) (A.mul (dist A l[13] l[0]) 1.1) = true

instance (A : Arith) (l : List (Landmark A.N)) : Decidable (helloCond A l) := by
  unfold helloCond; infer_instance

instance (A : Arith) (l : List (Landmark A.N)) (hl : l.length = 21) :
    Decidable (thanksCond A l hl) := by
  unfold thanksCond; infer_instance

instance (A : Arith) (l : List (Landmark A.N)) (hl : l.length = 21) :
    Decidable (yesCond A l hl) := by
  unfold yesCond; infer_instance

instance (A : Arith) (l : List (Landmark A.N)) (hl : l.length = 21) :
    Decidable (noCond A l hl) := by
  unfold noCond; infer_instance

instance (A : Arith) (l : List (Landmark A.N)) (hl : l.length = 21) :
    Decidable (helpCond A l hl) := by
  unfold helpCond; infer_instance

/-- Exact arithmetic as a `Js.Arith`: rationals, and exact square roots with `none` for the
NaN that `Math.sqrt` gives on a negative number. -/
def exact : Arith where
  N := ℚ
  R := Option Root
  sub a b := a - b
  add a b := a + b
  pow := Math.pow
  sqrt a := if a < 0 then none else some (Math.sqrt a)
  mul r c := r.map (fun d => d * c)
  ltN a b := decide (a < b)
  ltR a b :=
    match a, b with
    | some a, some b => decide (a < b)
    | _, _ => false

/-- A landmark of the exact classifier as a landmark over `exact`. -/
def ofExact (p : SignTalk.Landmark) : Landmark exact.N :=
  ⟨p.x, p.y, p.z⟩

end Js

/-! ## Unfolding the classifier on a hand of 21 landmarks -/

theorem ok_bind {ε α β : Type} (a : α) (f : α → Except ε β) : (Except.ok a >>= f) = f a := rfl

theorem pure_eq_ok {ε α : Type} (a : α) : (pure a : Except ε α) = Except.ok a := rfl


/-- A list of length 21 is a list of 21 explicit entries. -/
theorem exists_landmarks_of_length {α : Type} (l : List α) (h : l.length = 21) :
    ∃ a0 a1 a2 a3 a4 a5 a6 a7 a8 a9 a10 a11 a12 a13 a14 a15 a16 a17 a18 a19 a20 : α,
      l = [a0, a1, a2, a3, a4, a5, a6, a7, a8, a9, a10, a11, a12, a13, a14, a15, a16, a17, a18, a19, a20] := by
  match l, h with
  | [a0, a1, a2, a3, a4, a5, a6, a7, a8, a9, a10, a11, a12, a13, a14, a15, a16, a17, a18, a19, a20], _ => exact ⟨a0, a1, a2, a3, a4, a5, a6, a7, a8, a9, a10, a11, a12, a13, a14, a15, a16, a17, a18, a19, a20, rfl⟩

theorem checkIfHandOpen_explicit (a0 a1 a2 a3 a4 a5 a6 a7 a8 a9 a10 a11 a12 a13 a14 a15 a16 a17 a18 a19 a20 : Landmark) :
    checkIfHandOpen (some [a0, a1, a2, a3, a4, a5, a6, a7, a8, a9, a10, a11, a12, a13, a14, a15, a16, a17, a18, a19, a20]) =
      .ok (decide (a8.y < a6.y) && decide (a12.y < a10.y) && decide (a16.y < a14.y) &&
        decide (a20.y < a18.y)) := by
  simp only [checkIfHandOpen, tableEntry, fingerTips, fingerBases, deref, List.length_cons,
    List.length_nil, List.forIn_cons, List.forIn_nil, bind, Except.bind, pure, Except.pure,
    Functor.map, Except.map, List.getElem?_cons_succ, List.getElem?_cons_zero, Option.bind]
  by_cases h1 : a8.y < a6.y <;> by_cases h2 : a12.y < a10.y <;> by_cases h3 : a16.y < a14.y <;>
    by_cases h4 : a20.y < a18.y <;> simp [h1, h2, h3, h4]

theorem detectGesture_eq_rules (l : List Landmark) (hl : l.length = 21) :
    detectGesture (some l) = .ok
      (if checkIfHandOpen (some l) = .ok true then some "hello"
       else if thanksCond l hl then some "thanks"
       else if yesCond l hl then some "yes"
       else if noCond l hl then some "no"
       else if helpCond l hl then some "help"
       else none) := by
  obtain ⟨a0, a1, a2, a3, a4, a5, a6, a7, a8, a9, a10, a11, a12, a13, a14, a15, a16, a17, a18,
    a19, a20, rfl⟩ := exists_landmarks_of_length l hl
  have h21 : ¬ ([a0, a1, a2, a3, a4, a5, a6, a7, a8, a9, a10, a11, a12, a13, a14, a15, a16, a17, a18,
      a19, a20] : List Landmark).length < 21 := by simp
  have e0 : ([a0, a1, a2, a3, a4, a5, a6, a7, a8, a9, a10, a11, a12, a13, a14, a15, a16, a17, a18,
      a19, a20] : List Landmark)[0]? = some a0 := rfl
  have e1 : ([a0, a1, a2, a3, a4, a5, a6, a7, a8, a9, a10, a11, a12, a13, a14, a15, a16, a17, a18,
      a19, a20] : List Landmark)[1]? = some a1 := rfl
  have e4 : ([a0, a1, a2, a3, a4, a5, a6, a7, a8, a9, a10, a11, a12, a13, a14, a15, a16, a17, a18,
      a19, a20] : List Landmark)[4]? = some a4 := rfl
  have e5 : ([a0, a1, a2, a3, a4, a5, a6, a7, a8, a9, a10, a11, a12, a13, a14, a15, a16, a17, a18,
      a19, a20] : List Landmark)[5]? = some a5 := rfl
  have e8 : ([a0, a1, a2, a3, a4, a5, a6, a7, a8, a9, a10, a11, a12, a13, a14, a15, a16, a17, a18,
      a19, a20] : List Landmark)[8]? = some a8 := rfl
  have e9 : ([a0, a1, a2, a3, a4, a5, a6, a7, a8, a9, a10, a11, a12, a13, a14, a15, a16, a17, a18,
      a19, a20] : List Landmark)[9]? = some a9 := rfl
  have e12 : ([a0, a1, a2, a3, a4, a5, a6, a7, a8, a9, a10, a11, a12, a13, a14, a15, a16, a17, a18,
      a19, a20] : List Landmark)[12]? = some a12 := rfl
  have e13 : ([a0, a1, a2, a3, a4, a5, a6, a7, a8, a9, a10, a11, a12, a13, a14, a15, a16, a17, a18,
      a19, a20] : List Landmark)[13]? = some a13 := rfl
  have e16 : ([a0, a1, a2, a3, a4, a5, a6, a7, a8, a9, a10, a11, a12, a13, a14, a15, a16, a17, a18,
      a19, a20] : List Landmark)[16]? = some a16 := rfl
  have e17 : ([a0, a1, a2, a3, a4, a5, a6, a7, a8, a9, a10, a11, a12, a13, a14, a15, a16, a17, a18,
      a19, a20] : List Landmark)[17]? = some a17 := rfl
  have e20 : ([a0, a1, a2, a3, a4, a5, a6, a7, a8, a9, a10, a11, a12, a13, a14, a15, a16, a17, a18,
      a19, a20] : List Landmark)[20]? = some a20 := rfl
  unfold detectGesture
  simp only [checkIfHandOpen_explicit, h21, if_false]
  simp only [e0, e1, e4, e5, e8, e9, e12, e13, e16, e17, e20]
  simp only [deref, ok_bind, pure_eq_ok]
  simp only [thanksCond, yesCond, noCond, helpCond, List.getElem_cons_succ,
    List.getElem_cons_zero]
  clear e0 e1 e4 e5 e8 e9 e12 e13 e16 e17 e20 h21
  simp only [Bool.and_eq_true, decide_eq_true_eq, Bool.not_eq_true', decide_eq_false_iff_not,
    Except.ok.injEq, and_assoc]
  simp only [apply_ite (Except.ok : Option String → Except JsError (Option String))]
  by_cases hA : dist a4 a8 < dist a4 a5 * (0.3 : ℚ)
  · by_cases hB : ¬dist a12 a0 > dist a9 a0 * (1.2 : ℚ) ∧
        ¬dist a16 a0 > dist a13 a0 * (1.2 : ℚ) ∧ ¬dist a20 a0 > dist a17 a0 * (1.2 : ℚ)
    · have hAB := And.intro hA hB
      rw [if_pos hA, if_pos hB, if_pos hAB]
    · have hAB := fun h : _ ∧ _ => hB (And.right (a := dist a4 a8 < dist a4 a5 * (0.3 : ℚ)) h)
      rw [if_pos hA, if_neg hB, if_neg hAB]
  · have hAB := fun h : _ ∧ (¬dist a12 a0 > dist a9 a0 * (1.2 : ℚ) ∧
        ¬dist a16 a0 > dist a13 a0 * (1.2 : ℚ) ∧ ¬dist a20 a0 > dist a17 a0 * (1.2 : ℚ)) =>
      hA (And.left h)
    rw [if_neg hA, if_neg hAB]

/-! ## The exact square-root representation against the real square root -/

theorem Root.lt_iff_real (a b : Root) (ha : 0 ≤ a.radicand) :
    a < b ↔ Real.sqrt (a.radicand : ℝ) < Real.sqrt (b.radicand : ℝ) := by
  have ha' : (0 : ℝ) ≤ (a.radicand : ℝ) := by exact_mod_cast ha
  rw [Real.sqrt_lt_sqrt_iff ha']
  exact Rat.cast_lt.symm

theorem Root.le_iff_real (a b : Root) (hb : 0 ≤ b.radicand) :
    a ≤ b ↔ Real.sqrt (a.radicand : ℝ) ≤ Real.sqrt (b.radicand : ℝ) := by
  have hb' : (0 : ℝ) ≤ (b.radicand : ℝ) := by exact_mod_cast hb
  rw [Real.sqrt_le_sqrt_iff hb']
  exact Rat.cast_le.symm

theorem Root.sqrt_mul_real (a : Root) (c : ℚ) (hc : 0 ≤ c) :
    Real.sqrt ((a * c).radicand : ℝ) = Real.sqrt (a.radicand : ℝ) * (c : ℝ) := by
  have hc' : (0 : ℝ) ≤ (c : ℝ) := by exact_mod_cast hc
  show Real.sqrt ((a.radicand * c ^ 2 : ℚ) : ℝ) = _
  push_cast
  rw [Real.sqrt_mul' _ (sq_nonneg _), Real.sqrt_sq hc']

theorem dist_radicand_nonneg (p q : Landmark) : 0 ≤ (dist p q).radicand := by
  show 0 ≤ (p.x - q.x) ^ 2 + (p.y - q.y) ^ 2
  positivity

theorem Root.lt_def (a b : Root) : a < b ↔ a.radicand < b.radicand := Iff.rfl

theorem Root.le_def (a b : Root) : a ≤ b ↔ a.radicand ≤ b.radicand := Iff.rfl

theorem Root.mul_radicand (a : Root) (c : ℚ) : (a * c).radicand = a.radicand * c ^ 2 := rfl

theorem checkIfHandOpen_eq_tips (l : List Landmark) (hl : l.length = 21) :
    checkIfHandOpen (some l) =
      .ok (decide (l[8].y < l[6].y) && decide (l[12].y < l[10].y) && decide (l[16].y < l[14].y) &&
        decide (l[20].y < l[18].y)) := by
  obtain ⟨a0, a1, a2, a3, a4, a5, a6, a7, a8, a9, a10, a11, a12, a13, a14, a15, a16, a17, a18,
    a19, a20, rfl⟩ := exists_landmarks_of_length l hl
  simp only [checkIfHandOpen_explicit, List.getElem_cons_succ, List.getElem_cons_zero]

theorem checkIfHandOpen_true_iff (l : List Landmark) (hl : l.length = 21) :
    checkIfHandOpen (some l) = .ok true ↔ tipsAboveFingerBases l hl := by
  rw [checkIfHandOpen_eq_tips l hl]
  simp only [tipsAboveFingerBases, Except.ok.injEq, Bool.and_eq_true, decide_eq_true_eq, and_assoc]

theorem checkIfHandOpen_false_iff (l : List Landmark) (hl : l.length = 21) :
    checkIfHandOpen (some l) = .ok false ↔ ¬ checkIfHandOpen (some l) = .ok true := by
  rw [checkIfHandOpen_eq_tips l hl]
  cases decide (l[8].y < l[6].y) && decide (l[12].y < l[10].y) && decide (l[16].y < l[14].y) &&
    decide (l[20].y < l[18].y) <;> simp

/-! ## Short input -/

/-- C1: on a missing (null) input and on every landmark sequence with fewer than 21 entries,
`detectGesture` returns null; it raises no exception. -/
theorem detectGesture_short_input :
    detectGesture none = .ok none ∧
      ∀ l : List Landmark, l.length < 21 → detectGesture (some l) = .ok none := by
  refine ⟨rfl, fun l h => ?_⟩
  unfold detectGesture
  simp only [h, if_true]
  rfl

theorem detectGesture_short_input_witness :
    shortHand.length < 21 ∧ detectGesture (some shortHand) = .ok none ∧
      detectGesture (some []) = .ok none :=
  ⟨by decide, detectGesture_short_input.2 shortHand (by decide),
    detectGesture_short_input.2 [] (by decide)⟩

/-! ## Rule precedence -/

/-- C2: a hand of 21 landmarks that passes the Hello check and also satisfies the Thanks
condition is classified 'hello'; and such a hand exists. -/
theorem hello_precedes_thanks :
    (∀ (l : List Landmark) (hl : l.length = 21),
        checkIfHandOpen (some l) = .ok true → thanksCond l hl →
          detectGesture (some l) = .ok (some "hello")) ∧
      ∃ (l : List Landmark) (hl : l.length = 21),
        checkIfHandOpen (some l) = .ok true ∧ thanksCond l hl := by
  refine ⟨fun l hl hOpen _ => ?_, openPinchHand, rfl, by decide, ?_⟩
  · rw [detectGesture_eq_rules l hl, if_pos hOpen]
  · simp only [openPinchHand, thanksCond, List.getElem_cons_succ, List.getElem_cons_zero]
    norm_num [dist, Math.sqrt, Math.pow, Root.lt_def, Root.le_def, Root.mul_radicand]

theorem hello_precedes_thanks_witness :
    checkIfHandOpen (some openPinchHand) = .ok true ∧ thanksCond openPinchHand rfl ∧
      detectGesture (some openPinchHand) = .ok (some "hello") := by
  have hOpen : checkIfHandOpen (some openPinchHand) = .ok true := by decide
  have hThanks : thanksCond openPinchHand rfl := by
    simp only [openPinchHand, thanksCond, List.getElem_cons_succ, List.getElem_cons_zero]
    norm_num [dist, Math.sqrt, Math.pow, Root.lt_def, Root.le_def, Root.mul_radicand]
  exact ⟨hOpen, hThanks, hello_precedes_thanks.1 openPinchHand rfl hOpen hThanks⟩

/-! ## Hello -/

/-- C3, as stated, fails: on `curledHand` every non-thumb fingertip is above its base joint
(5, 9, 13, 17), and `detectGesture` returns null, not 'hello'. -/
theorem hello_base_joints_counterexample :
    tipsAboveBaseJoints curledHand rfl ∧ detectGesture (some curledHand) = .ok none := by
  refine ⟨?_, ?_⟩
  · simp only [curledHand, tipsAboveBaseJoints, List.getElem_cons_succ, List.getElem_cons_zero]
    norm_num
  · rw [detectGesture_eq_rules curledHand rfl]
    simp only [curledHand, checkIfHandOpen_explicit, thanksCond, yesCond, noCond, helpCond,
      List.getElem_cons_succ, List.getElem_cons_zero]
    norm_num [dist, Math.sqrt, Math.pow, Root.lt_def, Root.le_def, Root.mul_radicand]

/-- C3, amended: a hand of 21 landmarks in which each non-thumb fingertip (8, 12, 16, 20) has a
smaller y than the joint `fingerBases` pairs it with (6, 10, 14, 18) is classified 'hello',
whatever the other landmarks are. -/
theorem hello_of_tips_above_fingerBases (l : List Landmark) (hl : l.length = 21)
    (h : tipsAboveFingerBases l hl) : detectGesture (some l) = .ok (some "hello") := by
  rw [detectGesture_eq_rules l hl, if_pos ((checkIfHandOpen_true_iff l hl).2 h)]

theorem hello_of_tips_above_fingerBases_witness :
    tipsAboveFingerBases pointingOpenHand rfl ∧
      detectGesture (some pointingOpenHand) = .ok (some "hello") := by
  have h : tipsAboveFingerBases pointingOpenHand rfl := by
    simp only [pointingOpenHand, tipsAboveFingerBases, List.getElem_cons_succ,
      List.getElem_cons_zero]
    norm_num
  exact ⟨h, hello_of_tips_above_fingerBases pointingOpenHand rfl h⟩

/-! ## Thanks -/

/-- C4, as stated, fails: `collapsedHand` fails the Hello check, its thumb tip is within 20% of
the thumb-tip-to-middle-base distance from the middle tip (both distances are 0), and
`detectGesture` returns null, not 'thanks'. -/
theorem thanks_within_fifth_counterexample :
    checkIfHandOpen (some collapsedHand) = .ok false ∧ thumbWithinFifth collapsedHand rfl ∧
      detectGesture (some collapsedHand) = .ok none := by
  refine ⟨by decide, ?_, ?_⟩
  · simp only [collapsedHand, thumbWithinFifth, List.getElem_cons_succ, List.getElem_cons_zero]
    norm_num [dist, Math.sqrt, Math.pow, Root.lt_def, Root.le_def, Root.mul_radicand]
  · rw [detectGesture_eq_rules collapsedHand rfl]
    simp only [collapsedHand, checkIfHandOpen_explicit, thanksCond, yesCond, noCond, helpCond,
      List.getElem_cons_succ, List.getElem_cons_zero]
    norm_num [dist, Math.sqrt, Math.pow, Root.lt_def, Root.le_def, Root.mul_radicand]

/-- C4, amended: a hand of 21 landmarks that fails the Hello check, whose thumb tip is not at
the point of the middle base, and whose thumb-tip-to-middle-tip distance is at most 0.2 times
the thumb-tip-to-middle-base distance, is classified 'thanks'. -/
theorem thanks_of_within_fifth (l : List Landmark) (hl : l.length = 21)
    (hHello : checkIfHandOpen (some l) = .ok false) (hOff : thumbOffMiddleBase l hl)
    (h : thumbWithinFifth l hl) : detectGesture (some l) = .ok (some "thanks") := by
  have hT : thanksCond l hl := by
    unfold thanksCond
    unfold thumbWithinFifth at h
    unfold thumbOffMiddleBase at hOff
    rw [Root.le_def, Root.mul_radicand] at h
    rw [Root.lt_def] at hOff
    rw [Root.lt_def, Root.mul_radicand]
    have h0 : 0 < (dist l[4] l[9]).radicand := hOff
    have h1 : (dist l[4] l[9]).radicand * (0.2 : ℚ) ^ 2 <
        (dist l[4] l[9]).radicand * (0.3 : ℚ) ^ 2 := by
      apply mul_lt_mul_of_pos_left _ h0
      norm_num
    exact lt_of_le_of_lt h h1
  rw [detectGesture_eq_rules l hl, if_neg ((checkIfHandOpen_false_iff l hl).1 hHello), if_pos hT]

theorem thanks_of_within_fifth_witness :
    checkIfHandOpen (some helpThanksHand) = .ok false ∧ thumbOffMiddleBase helpThanksHand rfl ∧
      thumbWithinFifth helpThanksHand rfl ∧
      detectGesture (some helpThanksHand) = .ok (some "thanks") := by
  have h1 : checkIfHandOpen (some helpThanksHand) = .ok false := by decide
  have h2 : thumbOffMiddleBase helpThanksHand rfl := by
    simp only [helpThanksHand, thumbOffMiddleBase, List.getElem_cons_succ,
      List.getElem_cons_zero]
    norm_num [dist, Math.sqrt, Math.pow, Root.lt_def, Root.le_def, Root.mul_radicand]
  have h3 : thumbWithinFifth helpThanksHand rfl := by
    simp only [helpThanksHand, thumbWithinFifth, List.getElem_cons_succ, List.getElem_cons_zero]
    norm_num [dist, Math.sqrt, Math.pow, Root.lt_def, Root.le_def, Root.mul_radicand]
  exact ⟨h1, h2, h3, thanks_of_within_fifth helpThanksHand rfl h1 h2 h3⟩

/-! ## No -/

/-- C5, as stated, fails: each of the three hands below is an index-finger-only point (the No
condition holds), and `detectGesture` returns 'hello', 'thanks' and 'yes' on them, not 'no'. -/
theorem no_of_index_point_counterexample :
    (noCond pointingOpenHand rfl ∧
        detectGesture (some pointingOpenHand) = .ok (some "hello")) ∧
      (noCond pointingThanksHand rfl ∧
        detectGesture (some pointingThanksHand) = .ok (some "thanks")) ∧
      (noCond pointingYesHand rfl ∧
        detectGesture (some pointingYesHand) = .ok (some "yes")) := by
  refine ⟨⟨?_, ?_⟩, ⟨?_, ?_⟩, ?_, ?_⟩
  · simp only [pointingOpenHand, noCond, List.getElem_cons_succ, List.getElem_cons_zero]
    norm_num [dist, Math.sqrt, Math.pow, Root.lt_def, Root.le_def, Root.mul_radicand]
  · rw [detectGesture_eq_rules pointingOpenHand rfl]
    simp only [pointingOpenHand, checkIfHandOpen_explicit, thanksCond, yesCond, noCond, helpCond,
      List.getElem_cons_succ, List.getElem_cons_zero]
    norm_num [dist, Math.sqrt, Math.pow, Root.lt_def, Root.le_def, Root.mul_radicand]
  · simp only [pointingThanksHand, noCond, List.getElem_cons_succ, List.getElem_cons_zero]
    norm_num [dist, Math.sqrt, Math.pow, Root.lt_def, Root.le_def, Root.mul_radicand]
  · rw [detectGesture_eq_rules pointingThanksHand rfl]
    simp only [pointingThanksHand, checkIfHandOpen_explicit, thanksCond, yesCond, noCond, helpCond,
      List.getElem_cons_succ, List.getElem_cons_zero]
    norm_num [dist, Math.sqrt, Math.pow, Root.lt_def, Root.le_def, Root.mul_radicand]
  · simp only [pointingYesHand, noCond, List.getElem_cons_succ, List.getElem_cons_zero]
    norm_num [dist, Math.sqrt, Math.pow, Root.lt_def, Root.le_def, Root.mul_radicand]
  · rw [detectGesture_eq_rules pointingYesHand rfl]
    simp only [pointingYesHand, checkIfHandOpen_explicit, thanksCond, yesCond, noCond, helpCond,
      List.getElem_cons_succ, List.getElem_cons_zero]
    norm_num [dist, Math.sqrt, Math.pow, Root.lt_def, Root.le_def, Root.mul_radicand]

/-! ## Help -/

/-- C6, as stated, fails: `helpThanksHand` fails the Hello check and has thumb and pinky
extended and index, middle, ring closed, and `detectGesture` returns 'thanks', not 'help'. -/
theorem help_of_thumb_pinky_counterexample :
    checkIfHandOpen (some helpThanksHand) = .ok false ∧ helpCond helpThanksHand rfl ∧
      detectGesture (some helpThanksHand) = .ok (some "thanks") := by
  refine ⟨by decide, ?_, ?_⟩
  · simp only [helpThanksHand, helpCond, List.getElem_cons_succ, List.getElem_cons_zero]
    norm_num [dist, Math.sqrt, Math.pow, Root.lt_def, Root.le_def, Root.mul_radicand]
  · rw [detectGesture_eq_rules helpThanksHand rfl]
    simp only [helpThanksHand, checkIfHandOpen_explicit, thanksCond, yesCond, noCond, helpCond,
      List.getElem_cons_succ, List.getElem_cons_zero]
    norm_num [dist, Math.sqrt, Math.pow, Root.lt_def, Root.le_def, Root.mul_radicand]

/-! ## Depth is ignored -/

theorem dist_congr_xy (p q p2 q2 : Landmark) (hp : (p.x, p.y) = (p2.x, p2.y))
    (hq : (q.x, q.y) = (q2.x, q2.y)) : dist p q = dist p2 q2 := by
  simp only [Prod.mk.injEq] at hp hq
  simp only [dist, hp.1, hp.2, hq.1, hq.2]

/-- C8: two hands of 21 landmarks that agree on the x and y coordinates of every landmark get
the same result from `detectGesture`, whatever their z coordinates are. -/
theorem detectGesture_ignores_z (l₁ l₂ : List Landmark) (h₁ : l₁.length = 21)
    (h₂ : l₂.length = 21)
    (hxy : l₁.map (fun p => (p.x, p.y)) = l₂.map (fun p => (p.x, p.y))) :
    detectGesture (some l₁) = detectGesture (some l₂) := by
  obtain ⟨a0, a1, a2, a3, a4, a5, a6, a7, a8, a9, a10,
    a11, a12, a13, a14, a15, a16, a17, a18, a19, a20, rfl⟩ := exists_landmarks_of_length l₁ h₁
  obtain ⟨b0, b1, b2, b3, b4, b5, b6, b7, b8, b9, b10,
    b11, b12, b13, b14, b15, b16, b17, b18, b19, b20, rfl⟩ := exists_landmarks_of_length l₂ h₂
  simp only [List.map_cons, List.map_nil, List.cons.injEq, and_true] at hxy
  obtain ⟨e0, e1, e2, e3, e4, e5, e6, e7, e8, e9, e10, e11, e12, e13, e14, e15, e16, e17, e18, e19, e20⟩ := hxy
  have y6 := (Prod.mk.injEq _ _ _ _ ▸ e6 : _ ∧ _).2
  have y8 := (Prod.mk.injEq _ _ _ _ ▸ e8 : _ ∧ _).2
  have y10 := (Prod.mk.injEq _ _ _ _ ▸ e10 : _ ∧ _).2
  have y12 := (Prod.mk.injEq _ _ _ _ ▸ e12 : _ ∧ _).2
  have y14 := (Prod.mk.injEq _ _ _ _ ▸ e14 : _ ∧ _).2
  have y16 := (Prod.mk.injEq _ _ _ _ ▸ e16 : _ ∧ _).2
  have y18 := (Prod.mk.injEq _ _ _ _ ▸ e18 : _ ∧ _).2
  have y20 := (Prod.mk.injEq _ _ _ _ ▸ e20 : _ ∧ _).2
  rw [detectGesture_eq_rules _ h₁, detectGesture_eq_rules _ h₂]
  simp only [checkIfHandOpen_explicit, thanksCond, yesCond, noCond, helpCond,
    List.getElem_cons_succ, List.getElem_cons_zero, y6, y8, y10, y12, y14, y16, y18, y20,
    dist_congr_xy a4 a12 b4 b12 e4 e12, dist_congr_xy a4 a9 b4 b9 e4 e9,
    dist_congr_xy a4 a8 b4 b8 e4 e8, dist_congr_xy a4 a5 b4 b5 e4 e5,
    dist_congr_xy a12 a0 b12 b0 e12 e0, dist_congr_xy a9 a0 b9 b0 e9 e0,
    dist_congr_xy a16 a0 b16 b0 e16 e0, dist_congr_xy a13 a0 b13 b0 e13 e0,
    dist_congr_xy a20 a0 b20 b0 e20 e0, dist_congr_xy a17 a0 b17 b0 e17 e0,
    dist_congr_xy a8 a0 b8 b0 e8 e0, dist_congr_xy a5 a0 b5 b0 e5 e0,
    dist_congr_xy a4 a0 b4 b0 e4 e0, dist_congr_xy a1 a0 b1 b0 e1 e0]

theorem detectGesture_ignores_z_witness :
    curledHand.map (fun p => (p.x, p.y)) = curledHandDeep.map (fun p => (p.x, p.y)) ∧
      curledHand ≠ curledHandDeep ∧
      detectGesture (some curledHand) = detectGesture (some curledHandDeep) :=
  ⟨by decide, by decide, detectGesture_ignores_z curledHand curledHandDeep rfl rfl (by decide)⟩

/-! ## The frame step -/

theorem drawHandLandmarks_ok (l : List Landmark) (hl : l.length = 21) :
    drawHandLandmarks l = .ok () := by
  obtain ⟨a0, a1, a2, a3, a4, a5, a6, a7, a8, a9, a10, a11, a12, a13, a14, a15, a16, a17, a18,
    a19, a20, rfl⟩ := exists_landmarks_of_length l hl
  rfl

theorem detectHands_no_gesture_eq (s : AppState) (predictions : List Prediction)
    (h : predictions = [] ∨ ∃ hand rest, predictions = ⟨hand⟩ :: rest ∧ hand.length = 21 ∧
      detectGesture (some hand) = .ok none) :
    detectHands s predictions =
      .ok (if s.handposeModel && s.isCameraOn then
        { s with animationFrames := s.animationFrames + 1 } else s) := by
  unfold detectHands
  cases hm : s.handposeModel <;> cases hc : s.isCameraOn
  · rfl
  · rfl
  · rfl
  · rcases h with h | ⟨hand, rest, h, hl, hg⟩
    · subst h
      simp only [Bool.not_true, Bool.or_self, Bool.false_eq_true, if_false, pure_eq_ok, ok_bind,
        hc, hm, if_true, Bool.and_self]
    · subst h
      simp only [Bool.not_true, Bool.or_self, Bool.false_eq_true, if_false, pure_eq_ok, ok_bind,
        hc, hm, if_true, Bool.and_self, drawHandLandmarks_ok hand hl, hg]

/-- C9, as stated, fails: with the camera on and the word for 'hello' shown, a frame with no
hand, and a frame whose hand `detectGesture` maps to null, leave the word at opacity '1' and
visible, and schedule no timer. -/
theorem detectHands_no_gesture_counterexample :
    shownState.isCameraOn = true ∧
      (detectHands shownState []).map (fun s => (s.opacity, s.visibility, s.timers))
        = .ok ("1", "visible", []) ∧
      detectGesture (some curledHand) = .ok none ∧
      (detectHands shownState [⟨curledHand⟩]).map (fun s => (s.opacity, s.visibility, s.timers))
        = .ok ("1", "visible", []) := by
  have hg : detectGesture (some curledHand) = .ok none := by
    rw [detectGesture_eq_rules curledHand rfl]
    simp only [curledHand, checkIfHandOpen_explicit, thanksCond, yesCond, noCond, helpCond,
      List.getElem_cons_succ, List.getElem_cons_zero]
    norm_num [dist, Math.sqrt, Math.pow, Root.lt_def, Root.le_def, Root.mul_radicand]
  refine ⟨rfl, ?_, hg, ?_⟩
  · rw [detectHands_no_gesture_eq shownState [] (Or.inl rfl)]
    rfl
  · rw [detectHands_no_gesture_eq shownState [⟨curledHand⟩]
      (Or.inr ⟨curledHand, [], rfl, rfl, hg⟩)]
    rfl

/-- C9, amended: with the camera on, a frame in which no hand is detected, or in which the
detected hand has 21 landmarks and `detectGesture` returns null, completes and leaves the
displayed word as it was: text, opacity, visibility and `lastSpokenWord` are unchanged, no
call is made on `synth` and no timer is scheduled. -/
theorem detectHands_no_gesture (s : AppState) (predictions : List Prediction)
    (hCam : s.isCameraOn = true)
    (h : predictions = [] ∨ ∃ hand rest, predictions = ⟨hand⟩ :: rest ∧ hand.length = 21 ∧
      detectGesture (some hand) = .ok none) :
    ∃ s', detectHands s predictions = .ok s' ∧ s'.textContent = s.textContent ∧
      s'.opacity = s.opacity ∧ s'.visibility = s.visibility ∧
      s'.lastSpokenWord = s.lastSpokenWord ∧ s'.synthCalls = s.synthCalls ∧
      s'.timers = s.timers := by
  refine ⟨_, detectHands_no_gesture_eq s predictions h, ?_⟩
  cases s.handposeModel <;> simp [hCam]

theorem detectHands_no_gesture_witness :
    ∃ s', detectHands shownState [] = .ok s' ∧ s'.textContent = shownState.textContent ∧
      s'.opacity = shownState.opacity ∧ s'.visibility = shownState.visibility ∧
      s'.lastSpokenWord = shownState.lastSpokenWord ∧ s'.synthCalls = shownState.synthCalls ∧
      s'.timers = shownState.timers :=
  detectHands_no_gesture shownState [] rfl (Or.inl rfl)

/-! ## Speech de-duplication -/

theorem GESTURES_of_mem (g : String) (hg : g ∈ ["hello", "thanks", "yes", "no", "help"]) :
    ∃ word, GESTURES g = some word := by
  simp only [List.mem_cons, List.mem_singleton, List.not_mem_nil, or_false] at hg
  rcases hg with rfl | rfl | rfl | rfl | rfl <;> exact ⟨_, rfl⟩

theorem updateDetectedWord_of_word (s : AppState) (g word : String)
    (hw : GESTURES g = some word) :
    updateDetectedWord s g =
      if s.synth = true ∧ word ≠ s.lastSpokenWord then
        { s with
          textContent := word, visibility := "visible", opacity := "1"
          synthCalls := s.synthCalls ++ [SynthCall.cancel, SynthCall.speak word "ar-SA" 0.9]
          lastSpokenWord := word
          isSpeaking := true }
      else { s with textContent := word, visibility := "visible", opacity := "1" } := by
  unfold updateDetectedWord
  rw [hw]
  by_cases h1 : s.synth = true <;> by_cases h2 : word = s.lastSpokenWord <;>
    simp [h1, h2]

/-- C10: with speech synthesis available and `g` one of the five gesture keys,
`updateDetectedWord` issues `cancel` followed by `speak` of `GESTURES[g]` exactly when that word
differs from `lastSpokenWord` (and issues nothing otherwise); afterwards `lastSpokenWord` is
`GESTURES[g]`, so a second step with the same gesture issues no speech. -/
theorem updateDetectedWord_speech (s : AppState) (g : String) (hs : s.synth = true)
    (hg : g ∈ ["hello", "thanks", "yes", "no", "help"]) :
    ∃ word, GESTURES g = some word ∧
      ((updateDetectedWord s g).synthCalls =
          s.synthCalls ++ [SynthCall.cancel, SynthCall.speak word "ar-SA" 0.9] ↔
        word ≠ s.lastSpokenWord) ∧
      ((updateDetectedWord s g).synthCalls = s.synthCalls ↔ word = s.lastSpokenWord) ∧
      (updateDetectedWord s g).lastSpokenWord = word ∧
      (updateDetectedWord (updateDetectedWord s g) g).synthCalls =
        (updateDetectedWord s g).synthCalls := by
  obtain ⟨word, hw⟩ := GESTURES_of_mem g hg
  refine ⟨word, hw, ?_⟩
  have hlast : (updateDetectedWord s g).lastSpokenWord = word := by
    rw [updateDetectedWord_of_word s g word hw]
    by_cases h : word = s.lastSpokenWord <;> simp [hs, h]
  refine ⟨?_, ?_, hlast, ?_⟩
  · rw [updateDetectedWord_of_word s g word hw]
    by_cases h : word = s.lastSpokenWord <;> simp [hs, h]
  · rw [updateDetectedWord_of_word s g word hw]
    by_cases h : word = s.lastSpokenWord <;> simp [hs, h]
  · rw [updateDetectedWord_of_word (updateDetectedWord s g) g word hw]
    simp [hlast]

theorem updateDetectedWord_speech_witness :
    (updateDetectedWord freshState "hello").synthCalls =
        [SynthCall.cancel, SynthCall.speak "مرحباً" "ar-SA" 0.9] ∧
      (updateDetectedWord (updateDetectedWord freshState "hello") "hello").synthCalls =
        [SynthCall.cancel, SynthCall.speak "مرحباً" "ar-SA" 0.9] := by
  obtain ⟨word, hw, h1, _, _, h4⟩ :=
    updateDetectedWord_speech freshState "hello" rfl (by decide)
  have hword : word = "مرحباً" := by
    have : GESTURES "hello" = some "مرحباً" := rfl
    rw [this] at hw
    exact (Option.some.inj hw).symm
  subst hword
  have hne : "مرحباً" ≠ freshState.lastSpokenWord := by decide
  have h := h1.2 hne
  exact ⟨h, h4.trans h⟩

/-! ## The classifier over the program's arithmetic: unfolding -/

namespace Js

theorem checkIfHandOpen_explicit_js (A : Arith)
    (a0 a1 a2 a3 a4 a5 a6 a7 a8 a9 a10 a11 a12 a13 a14 a15 a16 a17 a18 a19 a20 : Landmark A.N) :
    checkIfHandOpen A (some [a0, a1, a2, a3, a4, a5, a6, a7, a8, a9, a10,
      a11, a12, a13, a14, a15, a16, a17, a18, a19, a20]) =
      .ok (A.ltN a8.y a6.y && A.ltN a12.y a10.y && A.ltN a16.y a14.y && A.ltN a20.y a18.y) := by
  simp only [checkIfHandOpen, tableEntry, fingerTips, fingerBases, deref, List.length_cons,
    List.length_nil, List.forIn_cons, List.forIn_nil, bind, Except.bind, pure, Except.pure,
    Functor.map, Except.map, List.getElem?_cons_succ, List.getElem?_cons_zero, Option.bind]
  cases A.ltN a8.y a6.y <;> cases A.ltN a12.y a10.y <;> cases A.ltN a16.y a14.y <;>
    cases A.ltN a20.y a18.y <;> simp

theorem detectGesture_eq_rules_js (A : Arith) (l : List (Landmark A.N)) (hl : l.length = 21) :
    detectGesture A (some l) = .ok
      (if helloCond A l then some "hello"
       else if thanksCond A l hl then some "thanks"
       else if yesCond A l hl then some "yes"
       else if noCond A l hl then some "no"
       else if helpCond A l hl then some "help"
       else none) := by
  obtain ⟨a0, a1, a2, a3, a4, a5, a6, a7, a8, a9, a10,
    a11, a12, a13, a14, a15, a16, a17, a18, a19, a20, rfl⟩ := exists_landmarks_of_length l hl
  have h21 : ¬ ([a0, a1, a2, a3, a4, a5, a6, a7, a8, a9, a10,
      a11, a12, a13, a14, a15, a16, a17, a18, a19, a20] : List (Landmark A.N)).length < 21 := by simp
  have e0 : ([a0, a1, a2, a3, a4, a5, a6, a7, a8, a9, a10,
      a11, a12, a13, a14, a15, a16, a17, a18, a19, a20] : List (Landmark A.N))[0]? = some a0 := rfl
  have e1 : ([a0, a1, a2, a3, a4, a5, a6, a7, a8, a9, a10,
      a11, a12, a13, a14, a15, a16, a17, a18, a19, a20] : List (Landmark A.N))[1]? = some a1 := rfl
  have e4 : ([a0, a1, a2, a3, a4, a5, a6, a7, a8, a9, a10,
      a11, a12, a13, a14, a15, a16, a17, a18, a19, a20] : List (Landmark A.N))[4]? = some a4 := rfl
  have e5 : ([a0, a1, a2, a3, a4, a5, a6, a7, a8, a9, a10,
      a11, a12, a13, a14, a15, a16, a17, a18, a19, a20] : List (Landmark A.N))[5]? = some a5 := rfl
  have e8 : ([a0, a1, a2, a3, a4, a5, a6, a7, a8, a9, a10,
      a11, a12, a13, a14, a15, a16, a17, a18, a19, a20] : List (Landmark A.N))[8]? = some a8 := rfl
  have e9 : ([a0, a1, a2, a3, a4, a5, a6, a7, a8, a9, a10,
      a11, a12, a13, a14, a15, a16, a17, a18, a19, a20] : List (Landmark A.N))[9]? = some a9 := rfl
  have e12 : ([a0, a1, a2, a3, a4, a5, a6, a7, a8, a9, a10,
      a11, a12, a13, a14, a15, a16, a17, a18, a19, a20] : List (Landmark A.N))[12]? = some a12 := rfl
  have e13 : ([a0, a1, a2, a3, a4, a5, a6, a7, a8, a9, a10,
      a11, a12, a13, a14, a15, a16, a17, a18, a19, a20] : List (Landmark A.N))[13]? = some a13 := rfl
  have e16 : ([a0, a1, a2, a3, a4, a5, a6, a7, a8, a9, a10,
      a11, a12, a13, a14, a15, a16, a17, a18, a19, a20] : List (Landmark A.N))[16]? = some a16 := rfl
  have e17 : ([a0, a1, a2, a3, a4, a5, a6, a7, a8, a9, a10,
      a11, a12, a13, a14, a15, a16, a17, a18, a19, a20] : List (Landmark A.N))[17]? = some a17 := rfl
  have e20 : ([a0, a1, a2, a3, a4, a5, a6, a7, a8, a9, a10,
      a11, a12, a13, a14, a15, a16, a17, a18, a19, a20] : List (Landmark A.N))[20]? = some a20 := rfl
  unfold detectGesture
  simp only [checkIfHandOpen_explicit_js, h21, if_false]
  simp only [e0, e1, e4, e5, e8, e9, e12, e13, e16, e17, e20]
  simp only [deref, ok_bind, pure_eq_ok]
  simp only [helloCond, checkIfHandOpen_explicit_js, thanksCond, yesCond, noCond, helpCond,
    List.getElem_cons_succ, List.getElem_cons_zero]
  clear e0 e1 e4 e5 e8 e9 e12 e13 e16 e17 e20 h21
  simp only [Bool.and_eq_true, Bool.not_eq_true', Except.ok.injEq, and_assoc]
  simp only [apply_ite (Except.ok : Option String → Except JsError (Option String))]
  by_cases hA : A.ltR (dist A a4 a8) (A.mul (dist A a4 a5) 0.3) = true
  · by_cases hB : A.ltR (A.mul (dist A a9 a0) 1.2) (dist A a12 a0) = false ∧
        A.ltR (A.mul (dist A a13 a0) 1.2) (dist A a16 a0) = false ∧
        A.ltR (A.mul (dist A a17 a0) 1.2) (dist A a20 a0) = false
    · have hAB := And.intro hA hB
      rw [if_pos hA, if_pos hB, if_pos hAB]
    · have hAB := fun h : _ ∧ _ =>
        hB (And.right (a := A.ltR (dist A a4 a8) (A.mul (dist A a4 a5) 0.3) = true) h)
      rw [if_pos hA, if_neg hB, if_neg hAB]
  · have hAB := fun h : _ ∧ (A.ltR (A.mul (dist A a9 a0) 1.2) (dist A a12 a0) = false ∧
        A.ltR (A.mul (dist A a13 a0) 1.2) (dist A a16 a0) = false ∧
        A.ltR (A.mul (dist A a17 a0) 1.2) (dist A a20 a0) = false) =>
      hA (And.left h)
    rw [if_neg hA, if_neg hAB]

theorem checkIfHandOpen_false_iff_js (A : Arith) (l : List (Landmark A.N))
    (hl : l.length = 21) :
    checkIfHandOpen A (some l) = .ok false ↔ ¬ helloCond A l := by
  obtain ⟨a0, a1, a2, a3, a4, a5, a6, a7, a8, a9, a10,
    a11, a12, a13, a14, a15, a16, a17, a18, a19, a20, rfl⟩ := exists_landmarks_of_length l hl
  unfold helloCond
  rw [checkIfHandOpen_explicit_js]
  cases A.ltN a8.y a6.y && A.ltN a12.y a10.y && A.ltN a16.y a14.y && A.ltN a20.y a18.y <;> simp

theorem exact_sub (a b : ℚ) : exact.sub a b = (a - b : ℚ) := rfl

theorem exact_add (a b : ℚ) : exact.add a b = (a + b : ℚ) := rfl

theorem exact_pow (a : ℚ) (n : ℕ) : exact.pow a n = (a ^ n : ℚ) := rfl

theorem exact_sqrt (a : ℚ) :
    exact.sqrt a = if a < 0 then (none : Option Root) else some ⟨a⟩ := rfl

theorem exact_mul_some (r : Root) (c : ℚ) :
    exact.mul (some r : Option Root) c = (some (r * c) : Option Root) := rfl

theorem exact_mul_none (c : ℚ) : exact.mul (none : Option Root) c = (none : Option Root) := rfl

theorem exact_ltN (a b : ℚ) : exact.ltN a b = decide (a < b) := rfl

theorem exact_ltR_some (a b : Root) :
    exact.ltR (some a : Option Root) (some b : Option Root) = decide (a < b) := rfl

theorem exact_ltR_none_left (b : Option Root) :
    exact.ltR (none : Option Root) b = false := rfl

theorem exact_ltR_none_right (a : Option Root) :
    exact.ltR a (none : Option Root) = false := by
  cases a <;> rfl

theorem exact_lt_irrefl (a : Option Root) : exact.ltR a a = false := by
  match a with
  | none => rfl
  | some a =>
    rw [exact_ltR_some, decide_eq_false_iff_not, Root.lt_def]
    exact lt_irrefl _

theorem exact_lt_trans (a b c : Option Root) (hab : exact.ltR a b = true)
    (hbc : exact.ltR b c = true) : exact.ltR a c = true := by
  match a, b, c with
  | none, _, _ => rw [exact_ltR_none_left] at hab; exact absurd hab Bool.false_ne_true
  | some _, none, _ => rw [exact_ltR_none_left] at hbc; exact absurd hbc Bool.false_ne_true
  | some _, some _, none => rw [exact_ltR_none_right] at hbc; exact absurd hbc Bool.false_ne_true
  | some a, some b, some c =>
    rw [exact_ltR_some, decide_eq_true_eq, Root.lt_def] at hab hbc ⊢
    exact lt_trans hab hbc

theorem exact_mul_sqrt_mono (n c c' : ℚ) (p : Option Root) (hc : 0 < c) (hcc : c ≤ c')
    (h : exact.ltR (exact.mul (exact.sqrt n) c') p = true) :
    exact.ltR (exact.mul (exact.sqrt n) c) p = true := by
  rw [exact_sqrt] at h ⊢
  by_cases hn : n < 0
  · rw [if_pos hn, exact_mul_none, exact_ltR_none_left] at h
    exact absurd h Bool.false_ne_true
  · rw [if_neg hn, exact_mul_some] at h ⊢
    match p with
    | none => rw [exact_ltR_none_right] at h; exact absurd h Bool.false_ne_true
    | some q =>
      rw [exact_ltR_some, decide_eq_true_eq, Root.lt_def, Root.mul_radicand] at h ⊢
      have hn0 : (0 : ℚ) ≤ n := not_lt.1 hn
      have hsq : c ^ 2 ≤ c' ^ 2 := pow_le_pow_left₀ (le_of_lt hc) hcc 2
      exact lt_of_le_of_lt (mul_le_mul_of_nonneg_left hsq hn0) h

theorem exact_lawful : exact.Lawful where
  lt_irrefl := exact_lt_irrefl
  lt_trans := exact_lt_trans
  mul_sqrt_mono := exact_mul_sqrt_mono

theorem dist_ofExact (p q : SignTalk.Landmark) :
    dist exact (ofExact p) (ofExact q) = (some (SignTalk.dist p q) : Option Root) := by
  have h : ¬ (p.x - q.x) ^ 2 + (p.y - q.y) ^ 2 < 0 := not_lt.2 (by positivity)
  show exact.sqrt (exact.add (exact.pow (exact.sub p.x q.x) 2)
    (exact.pow (exact.sub p.y q.y) 2)) = _
  rw [exact_sub, exact_sub, exact_pow, exact_pow, exact_add, exact_sqrt, if_neg h]
  rfl

/-- The exact classifier is the parametric classifier at exact arithmetic. -/
theorem detectGesture_exact_eq (l : List SignTalk.Landmark) (hl : l.length = 21) :
    detectGesture exact (some (l.map ofExact)) = SignTalk.detectGesture (some l) := by
  obtain ⟨a0, a1, a2, a3, a4, a5, a6, a7, a8, a9, a10,
    a11, a12, a13, a14, a15, a16, a17, a18, a19, a20, rfl⟩ := exists_landmarks_of_length l hl
  rw [detectGesture_eq_rules_js exact _ (by simp), SignTalk.detectGesture_eq_rules _ hl]
  simp only [List.map_cons, List.map_nil, helloCond, checkIfHandOpen_explicit_js,
    SignTalk.checkIfHandOpen_explicit, thanksCond, yesCond, noCond, helpCond,
    SignTalk.thanksCond, SignTalk.yesCond, SignTalk.noCond, SignTalk.helpCond,
    List.getElem_cons_succ, List.getElem_cons_zero, dist_ofExact, exact_mul_some,
    exact_ltR_some, decide_eq_true_eq, decide_eq_false_iff_not, GT.gt]
  rfl

/-! ## No, over the program's arithmetic -/

/-- C5, amended: in the arithmetic the program runs on, whatever its rounding, a hand of 21
landmarks that fails the Hello check, on which the program's Thanks and Yes conditions are
both false and its No condition (index past 1.3 times; middle, ring, pinky and thumb within 1.1
times) is true, is classified 'no'. -/
theorem no_of_index_point_arith (A : Arith) (l : List (Landmark A.N)) (hl : l.length = 21)
    (hHello : checkIfHandOpen A (some l) = .ok false) (hThanks : ¬ thanksCond A l hl)
    (hYes : ¬ yesCond A l hl) (h : noCond A l hl) :
    detectGesture A (some l) = .ok (some "no") := by
  rw [detectGesture_eq_rules_js A l hl, if_neg ((checkIfHandOpen_false_iff_js A l hl).1 hHello),
    if_neg hThanks, if_neg hYes, if_pos h]

theorem no_of_index_point_arith_witness :
    checkIfHandOpen exact (some (pointingHand.map ofExact)) = .ok false ∧
      ¬ thanksCond exact (pointingHand.map ofExact) rfl ∧
      ¬ yesCond exact (pointingHand.map ofExact) rfl ∧
      noCond exact (pointingHand.map ofExact) rfl ∧
      detectGesture exact (some (pointingHand.map ofExact)) = .ok (some "no") := by
  have h1 : checkIfHandOpen exact (some (pointingHand.map ofExact)) = .ok false := by
    simp only [pointingHand, List.map_cons, List.map_nil, ofExact, checkIfHandOpen_explicit_js]
    norm_num [exact_ltN]
  have h2 : ¬ thanksCond exact (pointingHand.map ofExact) rfl := by
    simp only [pointingHand, List.map_cons, List.map_nil, ofExact, thanksCond, List.getElem_cons_succ,
      List.getElem_cons_zero]
    norm_num [dist, exact_sub, exact_add, exact_pow, exact_sqrt, exact_mul_some, exact_ltR_some,
      Root.lt_def, Root.mul_radicand]
  have h3 : ¬ yesCond exact (pointingHand.map ofExact) rfl := by
    simp only [pointingHand, List.map_cons, List.map_nil, ofExact, yesCond, List.getElem_cons_succ,
      List.getElem_cons_zero]
    norm_num [dist, exact_sub, exact_add, exact_pow, exact_sqrt, exact_mul_some, exact_ltR_some,
      Root.lt_def, Root.mul_radicand]
  have h4 : noCond exact (pointingHand.map ofExact) rfl := by
    simp only [pointingHand, List.map_cons, List.map_nil, ofExact, noCond, List.getElem_cons_succ,
      List.getElem_cons_zero]
    norm_num [dist, exact_sub, exact_add, exact_pow, exact_sqrt, exact_mul_some, exact_ltR_some,
      Root.lt_def, Root.mul_radicand]
  exact ⟨h1, h2, h3, h4, no_of_index_point_arith exact _ rfl h1 h2 h3 h4⟩

/-! ## Help, over the program's arithmetic -/

theorem not_yesCond_of_helpCond_js (A : Arith) (hA : A.Lawful) (l : List (Landmark A.N))
    (hl : l.length = 21) (h : helpCond A l hl) : ¬ yesCond A l hl := by
  intro hy
  have hp := h.2.1
  have hn := hy.2.2.2
  have h12 : A.ltR (A.mul (dist A l[17] l[0]) 1.2) (dist A l[20] l[0]) = true :=
    hA.mul_sqrt_mono _ 1.2 1.3 _ (by norm_num) (by norm_num) hp
  rw [hn] at h12
  exact Bool.false_ne_true h12

theorem not_noCond_of_helpCond_js (A : Arith) (hA : A.Lawful) (l : List (Landmark A.N))
    (hl : l.length = 21) (h : helpCond A l hl) : ¬ noCond A l hl := by
  intro hn
  have hp := h.1
  have hc := hn.2.2.2.2
  have h1 := hA.lt_trans _ _ _ hp hc
  have h2 : A.ltR (A.mul (dist A l[1] l[0]) 1.1) (A.mul (dist A l[1] l[0]) 1.1) = true :=
    hA.mul_sqrt_mono _ 1.1 1.3 _ (by norm_num) (by norm_num) h1
  rw [hA.lt_irrefl] at h2
  exact Bool.false_ne_true h2

/-- C6, amended: in the arithmetic the program runs on (comparison irreflexive and transitive,
scaling a square root by the smaller of two positive literals gives no larger result, as for
IEEE doubles), a hand of 21 landmarks that fails the Hello check, on which the program's
Thanks condition is false, and which has thumb and pinky extended past 1.3 times and index,
middle and ring within 1.1 times, is classified 'help'. -/
theorem help_of_thumb_pinky_arith (A : Arith) (hA : A.Lawful) (l : List (Landmark A.N))
    (hl : l.length = 21) (hHello : checkIfHandOpen A (some l) = .ok false)
    (hThanks : ¬ thanksCond A l hl) (h : helpCond A l hl) :
    detectGesture A (some l) = .ok (some "help") := by
  rw [detectGesture_eq_rules_js A l hl, if_neg ((checkIfHandOpen_false_iff_js A l hl).1 hHello),
    if_neg hThanks, if_neg (not_yesCond_of_helpCond_js A hA l hl h),
    if_neg (not_noCond_of_helpCond_js A hA l hl h), if_pos h]

theorem help_of_thumb_pinky_arith_witness :
    checkIfHandOpen exact (some (helpHand.map ofExact)) = .ok false ∧
      ¬ thanksCond exact (helpHand.map ofExact) rfl ∧
      helpCond exact (helpHand.map ofExact) rfl ∧
      detectGesture exact (some (helpHand.map ofExact)) = .ok (some "help") := by
  have h1 : checkIfHandOpen exact (some (helpHand.map ofExact)) = .ok false := by
    simp only [helpHand, List.map_cons, List.map_nil, ofExact, checkIfHandOpen_explicit_js]
    norm_num [exact_ltN]
  have h2 : ¬ thanksCond exact (helpHand.map ofExact) rfl := by
    simp only [helpHand, List.map_cons, List.map_nil, ofExact, thanksCond, List.getElem_cons_succ,
      List.getElem_cons_zero]
    norm_num [dist, exact_sub, exact_add, exact_pow, exact_sqrt, exact_mul_some, exact_ltR_some,
      Root.lt_def, Root.mul_radicand]
  have h3 : helpCond exact (helpHand.map ofExact) rfl := by
    simp only [helpHand, List.map_cons, List.map_nil, ofExact, helpCond, List.getElem_cons_succ,
      List.getElem_cons_zero]
    norm_num [dist, exact_sub, exact_add, exact_pow, exact_sqrt, exact_mul_some, exact_ltR_some,
      Root.lt_def, Root.mul_radicand]
  exact ⟨h1, h2, h3, help_of_thumb_pinky_arith exact exact_lawful _ rfl h1 h2 h3⟩

/-! ## No gesture, over the program's arithmetic -/

/-- C7: in the arithmetic the program runs on, whatever its rounding, `detectGesture` returns
null on a hand of 21 landmarks exactly when none of the five rule conditions, as the program
evaluates them, holds, and otherwise returns one of 'hello', 'thanks', 'yes', 'no', 'help'. -/
theorem detectGesture_none_iff_arith (A : Arith) (l : List (Landmark A.N))
    (hl : l.length = 21) :
    (detectGesture A (some l) = .ok none ↔
        ¬ helloCond A l ∧ ¬ thanksCond A l hl ∧ ¬ yesCond A l hl ∧ ¬ noCond A l hl ∧
          ¬ helpCond A l hl) ∧
      (detectGesture A (some l) ≠ .ok none →
        ∃ g ∈ ["hello", "thanks", "yes", "no", "help"],
          detectGesture A (some l) = .ok (some g)) := by
  rw [detectGesture_eq_rules_js A l hl]
  by_cases h1 : helloCond A l
  · simp [h1]
  · by_cases h2 : thanksCond A l hl
    · simp [h1, h2]
    · by_cases h3 : yesCond A l hl
      · simp [h1, h2, h3]
      · by_cases h4 : noCond A l hl
        · simp [h1, h2, h3, h4]
        · by_cases h5 : helpCond A l hl
          · simp [h1, h2, h3, h4, h5]
          · simp [h1, h2, h3, h4, h5]

theorem detectGesture_none_iff_arith_witness :
    (detectGesture exact (some (curledHand.map ofExact)) = .ok none ↔
        ¬ helloCond exact (curledHand.map ofExact) ∧
          ¬ thanksCond exact (curledHand.map ofExact) rfl ∧
          ¬ yesCond exact (curledHand.map ofExact) rfl ∧
          ¬ noCond exact (curledHand.map ofExact) rfl ∧
          ¬ helpCond exact (curledHand.map ofExact) rfl) ∧
      (detectGesture exact (some (curledHand.map ofExact)) ≠ .ok none →
        ∃ g ∈ ["hello", "thanks", "yes", "no", "help"],
          detectGesture exact (some (curledHand.map ofExact)) = .ok (some g)) :=
  detectGesture_none_iff_arith exact (curledHand.map ofExact) rfl

end Js

end SignTalk
